import Mathlib

/-!
# Verification of the "Jogo das Cores" grid game engine

Shallow embedding of the game-state logic of
`src/JogodasCores/DesafioModulo3.cpp`: the cell grid, the mouse-click
selection, the color-similarity elimination, the score/attempt accounting
and the game-over detection.

Modelling conventions:
* C++ `float`/`double` values (colors, tolerances, pixel coordinates,
  positions) are idealized as exact rationals `ℚ`.
* The C++ fixed 2D array `grid[ROWS][COLS]` is a flat row-major
  `List Quad`, cell `(i, j)` at linear index `i * cols + j`, exactly the
  linear index the source itself uses for `iSelected`.
* The C library `rand()` is an abstract stream `f : ℕ → ℕ` of draws,
  consumed in the source's order (row-major, channels r, g, b per cell).
* The source's similarity test `sqrtf(distSq) / sqrt(3) <= tol` is encoded
  by the equivalent decidable test `0 ≤ tol ∧ distSq ≤ 3 * tol ^ 2`;
  theorem `isSimilar_iff_sqrt` proves the equivalence with the
  square-root formulation over `ℝ`.
-/

namespace JogoDasCores

/-- RGB color with normalized channels, `vec3 color` of `struct Quad`. -/
structure Color where
  r : ℚ
  g : ℚ
  b : ℚ
deriving DecidableEq, Repr

/-- One grid cell, `struct Quad` of the source: center position,
dimensions, color, elimination flag. -/
structure Quad where
  posX : ℚ
  posY : ℚ
  dimX : ℚ
  dimY : ℚ
  color : Color
  eliminated : Bool
deriving DecidableEq, Repr

/-- The whole game state: the grid configuration constants
(`ROWS`, `COLS`, `QUAD_W`, `QUAD_H`), the flat row-major grid, and the
mutable globals `attempts`, `score`, `gameOver`, `iSelected` of the
source (`iSelected = -1` means "no pending selection"). -/
structure GameState where
  rows : ℕ
  cols : ℕ
  quadW : ℕ
  quadH : ℕ
  grid : List Quad
  attempts : ℤ
  score : ℤ
  gameOver : Bool
  iSelected : ℤ
deriving DecidableEq, Repr

/-- Source constant `ROWS = 6`. -/
def ROWS : ℕ := 6

/-- Source constant `COLS = 8`. -/
def COLS : ℕ := 8

/-- Source constant `QUAD_W = 100`. -/
def QUAD_W : ℕ := 100

/-- Source constant `QUAD_H = 100`. -/
def QUAD_H : ℕ := 100

/-- Source constant `COLOR_TOLERANCE = 0.2f`, idealized as `1/5`. -/
def COLOR_TOLERANCE : ℚ := 1 / 5

/-- Squared Euclidean RGB distance, the radicand of the source's
`dist = sqrtf((r1-r2)^2 + (g1-g2)^2 + (b1-b2)^2)`. -/
def distSq (c t : Color) : ℚ :=
  (c.r - t.r) ^ 2 + (c.g - t.g) ^ 2 + (c.b - t.b) ^ 2

/-- The source's similarity test `dist / dMax <= toleranciaNormalized`
with `dMax = sqrt(3)`, encoded squared so that it is decidable:
`sqrt(d)/sqrt(3) ≤ tol  ↔  0 ≤ tol ∧ d ≤ 3·tol²` (proved as
`isSimilar_iff_sqrt`). -/
def isSimilar (tol : ℚ) (t c : Color) : Bool :=
  decide (0 ≤ tol ∧ distSq c t ≤ 3 * tol ^ 2)

/-- `grid[row][col].eliminated = true` on one cell. -/
def markEliminated (q : Quad) : Quad := { q with eliminated := true }

/-- Source `eliminarSimilares(toleranciaNormalized)`:
if `iSelected < 0` return `0` with no effect; otherwise mark the selected
quad eliminated, take its color as the target, eliminate every other
not-yet-eliminated quad whose normalized color distance to the target is
within tolerance, clear `iSelected` to `-1`, and return the number of
quads removed by this call (the selected one included, so at least 1).
The `none` branch (selected index beyond the grid — an out-of-bounds
access in the C++ source) is unreachable in states whose grid has
`rows * cols` cells, since `iSelected` is always set to a valid linear
index. -/
def eliminarSimilares (tol : ℚ) (s : GameState) : GameState × ℤ :=
  if s.iSelected < 0 then (s, 0)
  else
    match s.grid.get? s.iSelected.toNat with
    | none => ({ s with iSelected := -1 }, 1)
    | some q =>
      ({ s with
          grid := (s.grid.set s.iSelected.toNat (markEliminated q)).map fun c =>
            if !c.eliminated && isSimilar tol q.color c.color then markEliminated c
            else c
          iSelected := -1 },
        1 + ((s.grid.set s.iSelected.toNat (markEliminated q)).countP fun c =>
          !c.eliminated && isSimilar tol q.color c.color))

/-- Source `anyActiveCell()`: true iff some quad is not eliminated. -/
def anyActiveCell (s : GameState) : Bool :=
  s.grid.any fun q => !q.eliminated

/-- Lines 247–260 of the source's main loop: if the resolution removed at
least one quad, increment `attempts`, add `removedCount - penalty` to
`score` with `penalty = attempts` (the incremented running count), and
clamp `score` at `0`. -/
def applyScore (s1 : GameState) (removed : ℤ) : GameState :=
  if 0 < removed then
    { s1 with
      attempts := s1.attempts + 1
      score :=
        if s1.score + (removed - (s1.attempts + 1)) < 0 then 0
        else s1.score + (removed - (s1.attempts + 1)) }
  else s1

/-- Lines 263–267 of the source's main loop: set `gameOver` when no
active quad remains. -/
def applyGameOverCheck (s2 : GameState) : GameState :=
  if anyActiveCell s2 = false then { s2 with gameOver := true } else s2

/-- One iteration of the selection-processing block of the source's main
loop (lines 241–274): if a selection is pending and the game is not over,
run `eliminarSimilares`, apply the score update for its removal count,
set `gameOver` if no active cell remains, and clear the selection (line
273).  Also returns the `removedCount` of the call for observation. -/
def tick (tol : ℚ) (s : GameState) : GameState × ℤ :=
  if 0 ≤ s.iSelected ∧ s.gameOver = false then
    ({ applyGameOverCheck
          (applyScore (eliminarSimilares tol s).1 (eliminarSimilares tol s).2) with
        iSelected := -1 },
      (eliminarSimilares tol s).2)
  else (s, 0)

/-- C++ `static_cast<int>` on a real value: truncation toward zero. -/
def truncQ (q : ℚ) : ℤ := if 0 ≤ q then ⌊q⌋ else ⌈q⌉

/-- The pixel-to-cell-index map of `mouse_button_callback`:
`static_cast<int>((pos - QUAD_W / 2) / QUAD_W)`, where `QUAD_W / 2` is
C++ unsigned integer division. -/
def pixelToCell (w : ℕ) (p : ℚ) : ℤ :=
  truncQ ((p - ((w / 2 : ℕ) : ℚ)) / (w : ℚ))

/-- Source `mouse_button_callback` (left-press path): if the game is not
over, compute `col`/`row` by the half-cell-offset truncating division; if
`(row, col)` is inside the grid and that quad is not eliminated, record
`iSelected = row * COLS + col`; otherwise change nothing. -/
def mouse_button_callback (x y : ℚ) (s : GameState) : GameState :=
  if s.gameOver = false then
    if 0 ≤ pixelToCell s.quadW x ∧ pixelToCell s.quadW x < (s.cols : ℤ) ∧
        0 ≤ pixelToCell s.quadH y ∧ pixelToCell s.quadH y < (s.rows : ℤ) then
      match s.grid.get?
          (pixelToCell s.quadH y * (s.cols : ℤ) + pixelToCell s.quadW x).toNat with
      | none => s
      | some q =>
        if q.eliminated = false then
          { s with
            iSelected := pixelToCell s.quadH y * (s.cols : ℤ) + pixelToCell s.quadW x }
        else s
    else s
  else s

/-- The color produced for cell `k` by `resetGame`'s three consecutive
`rand() % 256 / 255.0f` draws from the stream `f`. -/
def randColor (f : ℕ → ℕ) (k : ℕ) : Color :=
  { r := ((f (3 * k) % 256 : ℕ) : ℚ) / 255
    g := ((f (3 * k + 1) % 256 : ℕ) : ℚ) / 255
    b := ((f (3 * k + 2) % 256 : ℕ) : ℚ) / 255 }

/-- Source `resetGame()`: zero `attempts`, `score`, `gameOver`,
`iSelected`; rebuild every cell with center
`(j*QUAD_W + QUAD_W/2, i*QUAD_H + QUAD_H/2)`, dimensions
`(QUAD_W, QUAD_H)`, a fresh color from the rand stream, and
`eliminated = false`.  The source's nested `i`/`j` loops are flattened to
the linear index `k = i * cols + j`; the three `rand()` calls of cell `k`
are draws `3k`, `3k+1`, `3k+2`. -/
def resetGame (f : ℕ → ℕ) (s : GameState) : GameState :=
  { s with
    attempts := 0
    score := 0
    gameOver := false
    iSelected := -1
    grid := (List.range (s.rows * s.cols)).map fun k =>
      let i := k / s.cols
      let j := k % s.cols
      { posX := (j : ℚ) * (s.quadW : ℚ) + (s.quadW : ℚ) / 2
        posY := (i : ℚ) * (s.quadH : ℚ) + (s.quadH : ℚ) / 2
        dimX := (s.quadW : ℚ)
        dimY := (s.quadH : ℚ)
        color := randColor f k
        eliminated := false } }

/-- The `eliminated` flag of cell `k`, read through the flat grid; an
out-of-range index reads as eliminated. -/
def elimAt (s : GameState) (k : ℕ) : Bool :=
  ((s.grid.get? k).map Quad.eliminated).getD true

/-- Number of eliminated cells in the grid.  The number of cells
eliminated by one call is the increase of this count across the call. -/
def countElim (s : GameState) : ℕ :=
  s.grid.countP fun q => q.eliminated

/-- The operations the event loop performs between two resets: a mouse
click and a main-loop tick (selection resolution). -/
inductive Op where
  | click (x y : ℚ)
  | tick (tol : ℚ)
deriving DecidableEq, Repr

/-- Apply one operation to the state. -/
def applyOp : Op → GameState → GameState
  | .click x y, s => mouse_button_callback x y s
  | .tick tol, s => (tick tol s).1

/-- Apply a sequence of click/tick operations in order. -/
def applyOps (ops : List Op) (s : GameState) : GameState :=
  ops.foldl (fun s op => applyOp op s) s

/-- Scenario cell `(0,0)`: center `(50,50)`, color `(1,0,0)`. -/
def scQuad0 : Quad := ⟨50, 50, 100, 100, ⟨1, 0, 0⟩, false⟩

/-- Scenario cell `(0,1)`: center `(150,50)`, color `(1,0,0)`. -/
def scQuad1 : Quad := ⟨150, 50, 100, 100, ⟨1, 0, 0⟩, false⟩

/-- Scenario cell `(1,0)`: center `(50,150)`, color `(0,0,1)`. -/
def scQuad2 : Quad := ⟨50, 150, 100, 100, ⟨0, 0, 1⟩, false⟩

/-- Scenario cell `(1,1)`: center `(150,150)`, color `(0,1,0)`. -/
def scQuad3 : Quad := ⟨150, 150, 100, 100, ⟨0, 1, 0⟩, false⟩

/-- The concrete 2×2 scenario of the spec: `cellWidth = cellHeight = 100`,
colors `(1,0,0)`, `(1,0,0)`, `(0,0,1)`, `(0,1,0)` at cells `(0,0)`,
`(0,1)`, `(1,0)`, `(1,1)`, fresh counters, no pending selection. -/
def scenarioState : GameState :=
  { rows := 2
    cols := 2
    quadW := 100
    quadH := 100
    grid := [scQuad0, scQuad1, scQuad2, scQuad3]
    attempts := 0
    score := 0
    gameOver := false
    iSelected := -1 }

/-- Scenario state after clicking pixel `(50,50)` and resolving. -/
def scenarioAfter1 : GameState :=
  (tick COLOR_TOLERANCE (mouse_button_callback 50 50 scenarioState)).1

/-- Scenario state after the further click at pixel `(50,150)` and its
resolution. -/
def scenarioAfter2 : GameState :=
  (tick COLOR_TOLERANCE (mouse_button_callback 50 150 scenarioAfter1)).1

/-- Scenario state after the final click at pixel `(150,150)` (the
remaining cell `(1,1)`) and its resolution. -/
def scenarioAfter3 : GameState :=
  (tick COLOR_TOLERANCE (mouse_button_callback 150 150 scenarioAfter2)).1

/-- Expected scenario state after the first resolution: cells `(0,0)`
and `(0,1)` eliminated, `attempts = 1`, `score = 1`. -/
def scState1 : GameState :=
  { scenarioState with
    grid := [markEliminated scQuad0, markEliminated scQuad1, scQuad2, scQuad3]
    attempts := 1
    score := 1
    iSelected := -1 }

/-- Expected scenario state after the second resolution: only `(1,1)`
active, `attempts = 2`, `score = 0`. -/
def scState2 : GameState :=
  { scenarioState with
    grid := [markEliminated scQuad0, markEliminated scQuad1, markEliminated scQuad2,
      scQuad3]
    attempts := 2
    score := 0
    iSelected := -1 }

/-- Expected scenario state after the third resolution: all cells
eliminated, game over. -/
def scState3 : GameState :=
  { scenarioState with
    grid := [markEliminated scQuad0, markEliminated scQuad1, markEliminated scQuad2,
      markEliminated scQuad3]
    attempts := 3
    score := 0
    gameOver := true
    iSelected := -1 }

/-- A 1×1 auxiliary state with dirty counters, used to exercise
`resetGame` on concrete inputs. -/
def unitState : GameState :=
  { rows := 1
    cols := 1
    quadW := 100
    quadH := 100
    grid := []
    attempts := 3
    score := 5
    gameOver := true
    iSelected := 2 }

/-- Reachable states, indexed by the number of successful resolutions
(those that removed at least one quad) since the last reset.  A session
starts with `resetGame` (main, line 232); afterwards the event loop
interleaves mouse clicks, main-loop ticks at the fixed
`COLOR_TOLERANCE`, and restarts (`R` key). -/
inductive ReachableN : GameState → ℕ → Prop
  | reset (f : ℕ → ℕ) (s : GameState) : ReachableN (resetGame f s) 0
  | click (x y : ℚ) {s : GameState} {n : ℕ} :
      ReachableN s n → ReachableN (mouse_button_callback x y s) n
  | tickStep {s : GameState} {n : ℕ} :
      ReachableN s n →
      ReachableN (tick COLOR_TOLERANCE s).1
        (if 0 < (tick COLOR_TOLERANCE s).2 then n + 1 else n)


theorem distSq_nonneg (c t : Color) : 0 ≤ distSq c t := by
  unfold distSq; positivity

/-- The decidable squared similarity test agrees with the source's
`sqrt(distSq) / sqrt(3) ≤ tol` over the reals, for every tolerance. -/
theorem isSimilar_iff_sqrt (tol : ℚ) (t c : Color) :
    isSimilar tol t c = true ↔
      Real.sqrt ((distSq c t : ℚ) : ℝ) / Real.sqrt 3 ≤ (tol : ℝ) := by
  rw [isSimilar, decide_eq_true_eq]
  have h3 : (0 : ℝ) < Real.sqrt 3 := Real.sqrt_pos.mpr (by norm_num)
  rw [div_le_iff₀ h3, Real.sqrt_le_iff]
  constructor
  · rintro ⟨htol, hd⟩
    have htol' : (0 : ℝ) ≤ (tol : ℝ) := by exact_mod_cast htol
    refine ⟨by positivity, ?_⟩
    have : ((distSq c t : ℚ) : ℝ) ≤ ((3 * tol ^ 2 : ℚ) : ℝ) := by exact_mod_cast hd
    calc ((distSq c t : ℚ) : ℝ) ≤ ((3 * tol ^ 2 : ℚ) : ℝ) := this
      _ = (tol : ℝ) ^ 2 * Real.sqrt 3 ^ 2 := by
          rw [Real.sq_sqrt (by norm_num : (0 : ℝ) ≤ 3)]; push_cast; ring
      _ = ((tol : ℝ) * Real.sqrt 3) ^ 2 := by ring
  · rintro ⟨hpos, hd⟩
    have htol : (0 : ℝ) ≤ (tol : ℝ) := by nlinarith [hpos, h3]
    refine ⟨by exact_mod_cast htol, ?_⟩
    have : ((distSq c t : ℚ) : ℝ) ≤ ((3 * tol ^ 2 : ℚ) : ℝ) := by
      calc ((distSq c t : ℚ) : ℝ) ≤ ((tol : ℝ) * Real.sqrt 3) ^ 2 := hd
        _ = (tol : ℝ) ^ 2 * Real.sqrt 3 ^ 2 := by ring
        _ = ((3 * tol ^ 2 : ℚ) : ℝ) := by
            rw [Real.sq_sqrt (by norm_num : (0 : ℝ) ≤ 3)]; push_cast; ring
    exact_mod_cast this

/-- Unfolding of `eliminarSimilares` when a valid selection is pending. -/
theorem eliminarSimilares_pending (tol : ℚ) (s : GameState) (sel : ℕ) (q : Quad)
    (hsel : s.iSelected = (sel : ℤ)) (hq : s.grid.get? sel = some q) :
    eliminarSimilares tol s =
      ({ s with
          grid := (s.grid.set sel (markEliminated q)).map fun c =>
            if !c.eliminated && isSimilar tol q.color c.color then markEliminated c
            else c
          iSelected := -1 },
        1 + (((s.grid.set sel (markEliminated q)).countP fun c =>
              !c.eliminated && isSimilar tol q.color c.color : ℕ) : ℤ)) := by
  unfold eliminarSimilares
  rw [hsel]
  rw [if_neg (by omega : ¬((sel : ℤ) < 0))]
  simp only [Int.toNat_ofNat, hq]


/-- `(1,0,0)` is within tolerance `0.2` of `(1,0,0)` (distance `0`). -/
theorem isSimilar_red_red :
    isSimilar COLOR_TOLERANCE ⟨1, 0, 0⟩ ⟨1, 0, 0⟩ = true := by
  rw [isSimilar, decide_eq_true_eq, COLOR_TOLERANCE]
  norm_num [distSq]

/-- `(0,0,1)` is not within tolerance `0.2` of `(1,0,0)`. -/
theorem isSimilar_red_blue :
    isSimilar COLOR_TOLERANCE ⟨1, 0, 0⟩ ⟨0, 0, 1⟩ = false := by
  rw [isSimilar, decide_eq_false_iff_not, COLOR_TOLERANCE]
  norm_num [distSq]

/-- `(0,1,0)` is not within tolerance `0.2` of `(1,0,0)`. -/
theorem isSimilar_red_green :
    isSimilar COLOR_TOLERANCE ⟨1, 0, 0⟩ ⟨0, 1, 0⟩ = false := by
  rw [isSimilar, decide_eq_false_iff_not, COLOR_TOLERANCE]
  norm_num [distSq]

/-- `(0,1,0)` is not within tolerance `0.2` of `(0,0,1)`. -/
theorem isSimilar_blue_green :
    isSimilar COLOR_TOLERANCE ⟨0, 0, 1⟩ ⟨0, 1, 0⟩ = false := by
  rw [isSimilar, decide_eq_false_iff_not, COLOR_TOLERANCE]
  norm_num [distSq]

/-- `(0,1,0)` is within tolerance `0.2` of itself. -/
theorem isSimilar_green_green :
    isSimilar COLOR_TOLERANCE ⟨0, 1, 0⟩ ⟨0, 1, 0⟩ = true := by
  rw [isSimilar, decide_eq_true_eq, COLOR_TOLERANCE]
  norm_num [distSq]

/-- C1: a cell other than the selected one is eliminated by a resolution
targeting the selected cell's color `t` iff it was not eliminated before
the call and `sqrt((c.r-t.r)² + (c.g-t.g)² + (c.b-t.b)²)/sqrt(3) ≤ tol`;
the target is always the originally clicked color, so elimination does
not propagate transitively through chains of similar cells. -/
theorem tolerance_correctness (tol : ℚ) (s : GameState) (sel k : ℕ)
    (q qk qk' : Quad)
    (hsel : s.iSelected = (sel : ℤ)) (hq : s.grid.get? sel = some q)
    (hk : k ≠ sel) (hqk : s.grid.get? k = some qk)
    (hqk' : (eliminarSimilares tol s).1.grid.get? k = some qk') :
    (qk'.eliminated = true ∧ qk.eliminated = false) ↔
      (qk.eliminated = false ∧
        Real.sqrt ((distSq qk.color q.color : ℚ) : ℝ) / Real.sqrt 3 ≤ (tol : ℝ)) := by
  rw [eliminarSimilares_pending tol s sel q hsel hq] at hqk'
  rw [List.get?_map, List.get?_set_ne _ _ (Ne.symm hk), hqk] at hqk'
  have hqk2 :
      qk' = if !qk.eliminated && isSimilar tol q.color qk.color then markEliminated qk
            else qk := by
    exact (Option.some.inj hqk').symm
  rw [← isSimilar_iff_sqrt]
  rcases he : qk.eliminated with _ | _
  · rcases hsim : isSimilar tol q.color qk.color with _ | _
    · simp [hqk2, he, hsim]
    · simp [hqk2, he, hsim, markEliminated]
  · simp [hqk2, he]

theorem tolerance_correctness_witness :
    (scQuad2.eliminated = true ∧ scQuad2.eliminated = false) ↔
      (scQuad2.eliminated = false ∧
        Real.sqrt ((distSq scQuad2.color scQuad0.color : ℚ) : ℝ) /
            Real.sqrt 3 ≤ ((COLOR_TOLERANCE : ℚ) : ℝ)) :=
  tolerance_correctness COLOR_TOLERANCE { scenarioState with iSelected := 0 } 0 2
    scQuad0 scQuad2 scQuad2 rfl rfl (by decide) rfl
    (by
      rw [eliminarSimilares_pending COLOR_TOLERANCE
        { scenarioState with iSelected := 0 } 0 scQuad0 rfl rfl]
      calc (({ scenarioState with iSelected := 0 } : GameState).grid.set 0
              (markEliminated scQuad0) |>.map fun c =>
                if !c.eliminated && isSimilar COLOR_TOLERANCE scQuad0.color c.color
                then markEliminated c else c).get? 2
          = some (if isSimilar COLOR_TOLERANCE ⟨1, 0, 0⟩ ⟨0, 0, 1⟩
                  then markEliminated scQuad2 else scQuad2) := rfl
        _ = some scQuad2 := by rw [isSimilar_red_blue]; rfl)

/-- Counting a disjunction of two predicates that never hold together
splits into the sum of the two counts. -/
theorem countP_or_disjoint {α : Type} (a b : α → Bool) (l : List α)
    (h : ∀ c, b c = true → a c = false) :
    (l.countP fun c => a c || b c) = l.countP a + l.countP b := by
  induction l with
  | nil => rfl
  | cons x xs ih =>
    rw [List.countP_cons, List.countP_cons, List.countP_cons, ih]
    rcases hb : b x with _ | _
    · rcases ha : a x with _ | _ <;> simp [ha, hb] <;> omega
    · have ha := h x hb
      simp [ha, hb]
      omega

/-- Overwriting one element for which the predicate was false with one
for which it is true raises the count by exactly one. -/
theorem countP_set_flip {α : Type} (p : α → Bool) :
    ∀ (l : List α) (n : ℕ) (q a : α), l.get? n = some q → p q = false →
      p a = true → (l.set n a).countP p = l.countP p + 1 := by
  intro l
  induction l with
  | nil =>
    intro n q a h _ _
    simp at h
  | cons x xs ih =>
    intro n q a h hq ha
    cases n with
    | zero =>
      have hx : x = q := by simpa using h
      rw [List.set_cons_zero, List.countP_cons, List.countP_cons, hx, hq, ha]
      simp
    | succ m =>
      have h2 : xs.get? m = some q := by simpa using h
      rw [List.set_cons_succ, List.countP_cons, List.countP_cons, ih m q a h2 hq ha]
      rcases hpx : p x with _ | _ <;> simp [hpx] <;> omega

/-- C3: `eliminarSimilares` returns `0` and changes nothing when no
selection is pending; with a pending selection it marks the selected cell
eliminated, returns at least `1`, clears `iSelected` to `-1`, and — for a
selection on a non-eliminated cell, the invariant selection always
satisfies — its return value equals the total number of cells eliminated
by the call (the increase of the eliminated count, the selected cell
included). -/
theorem resolve_selection_behavior :
    (∀ (tol : ℚ) (s : GameState), s.iSelected < 0 →
        eliminarSimilares tol s = (s, 0)) ∧
    (∀ (tol : ℚ) (s : GameState) (sel : ℕ) (q : Quad),
        s.iSelected = (sel : ℤ) → s.grid.get? sel = some q →
        elimAt (eliminarSimilares tol s).1 sel = true ∧
        1 ≤ (eliminarSimilares tol s).2 ∧
        (eliminarSimilares tol s).1.iSelected = -1) ∧
    (∀ (tol : ℚ) (s : GameState) (sel : ℕ) (q : Quad),
        s.iSelected = (sel : ℤ) → s.grid.get? sel = some q →
        q.eliminated = false →
        (eliminarSimilares tol s).2
          = (countElim (eliminarSimilares tol s).1 : ℤ) - (countElim s : ℤ)) := by
  refine ⟨?_, ?_, ?_⟩
  · intro tol s h
    unfold eliminarSimilares
    rw [if_pos h]
  · intro tol s sel q hsel hq
    have hlen : sel < s.grid.length := by
      rcases List.get?_eq_some.mp hq with ⟨h, _⟩; exact h
    rw [eliminarSimilares_pending tol s sel q hsel hq]
    refine ⟨?_, by simp, rfl⟩
    rw [elimAt]
    rw [List.get?_map, List.get?_set_eq_of_lt _ hlen]
    simp [markEliminated]
  · intro tol s sel q hsel hq hqe
    have h1 : (eliminarSimilares tol s).1.grid
        = (s.grid.set sel (markEliminated q)).map fun c =>
            if !c.eliminated && isSimilar tol q.color c.color then markEliminated c
            else c := by
      rw [eliminarSimilares_pending tol s sel q hsel hq]
    have h2 : (eliminarSimilares tol s).2
        = 1 + (((s.grid.set sel (markEliminated q)).countP fun c =>
            !c.eliminated && isSimilar tol q.color c.color : ℕ) : ℤ) := by
      rw [eliminarSimilares_pending tol s sel q hsel hq]
    simp only [countElim]
    rw [h1, h2]
    rw [List.countP_map]
    rw [show ((fun (c : Quad) => c.eliminated) ∘ fun c =>
          if !c.eliminated && isSimilar tol q.color c.color then markEliminated c
          else c)
        = fun c => c.eliminated || (!c.eliminated && isSimilar tol q.color c.color)
        from funext fun c => by
          rcases hc : c.eliminated with _ | _ <;>
            rcases hs2 : isSimilar tol q.color c.color with _ | _ <;>
              simp [Function.comp, hc, hs2, markEliminated]]
    rw [countP_or_disjoint (fun c => c.eliminated)
      (fun c => !c.eliminated && isSimilar tol q.color c.color)
      (s.grid.set sel (markEliminated q))
      (fun c hb => by
        rcases hc : c.eliminated with _ | _
        · exact hc
        · have hb2 : (!c.eliminated && isSimilar tol q.color c.color) = true := hb
          rw [hc] at hb2
          simp at hb2)]
    rw [countP_set_flip (fun c => c.eliminated) s.grid sel q (markEliminated q)
      hq hqe rfl]
    push_cast
    ring

theorem resolve_selection_behavior_witness :
    eliminarSimilares COLOR_TOLERANCE scenarioState = (scenarioState, 0) ∧
    (elimAt (eliminarSimilares COLOR_TOLERANCE
        { scenarioState with iSelected := 0 }).1 0 = true ∧
      1 ≤ (eliminarSimilares COLOR_TOLERANCE { scenarioState with iSelected := 0 }).2 ∧
      (eliminarSimilares COLOR_TOLERANCE
        { scenarioState with iSelected := 0 }).1.iSelected = -1) ∧
    (eliminarSimilares COLOR_TOLERANCE { scenarioState with iSelected := 0 }).2
      = (countElim (eliminarSimilares COLOR_TOLERANCE
          { scenarioState with iSelected := 0 }).1 : ℤ)
        - (countElim scenarioState : ℤ) :=
  ⟨resolve_selection_behavior.1 COLOR_TOLERANCE scenarioState (by decide),
    resolve_selection_behavior.2.1 COLOR_TOLERANCE
      { scenarioState with iSelected := 0 } 0 scQuad0 rfl rfl,
    resolve_selection_behavior.2.2 COLOR_TOLERANCE
      { scenarioState with iSelected := 0 } 0 scQuad0 rfl rfl rfl⟩


/-- C4: click handling computes the target cell by subtracting half the
cell width/height and truncating the division by the cell dimensions; an
out-of-bounds target, a game-over state, or an already-eliminated target
cell makes the click a no-op on the whole state; otherwise the linear
index `row * cols + col` is recorded as the pending selection and nothing
else changes. -/
theorem click_mapping (x y : ℚ) (s : GameState) :
    ((s.gameOver = true ∨
        ¬(0 ≤ pixelToCell s.quadW x ∧ pixelToCell s.quadW x < (s.cols : ℤ) ∧
          0 ≤ pixelToCell s.quadH y ∧ pixelToCell s.quadH y < (s.rows : ℤ)) ∨
        elimAt s
          (pixelToCell s.quadH y * (s.cols : ℤ) + pixelToCell s.quadW x).toNat = true) →
      mouse_button_callback x y s = s) ∧
    (s.gameOver = false →
      (0 ≤ pixelToCell s.quadW x ∧ pixelToCell s.quadW x < (s.cols : ℤ) ∧
        0 ≤ pixelToCell s.quadH y ∧ pixelToCell s.quadH y < (s.rows : ℤ)) →
      elimAt s
        (pixelToCell s.quadH y * (s.cols : ℤ) + pixelToCell s.quadW x).toNat = false →
      mouse_button_callback x y s =
        { s with
          iSelected :=
            pixelToCell s.quadH y * (s.cols : ℤ) + pixelToCell s.quadW x }) := by
  constructor
  · intro h
    unfold mouse_button_callback
    by_cases hgo : s.gameOver = false
    · rw [if_pos hgo]
      rcases h with h | h | h
      · rw [h] at hgo; exact absurd hgo (by decide)
      · rw [if_neg h]
      · by_cases hb : (0 ≤ pixelToCell s.quadW x ∧ pixelToCell s.quadW x < (s.cols : ℤ) ∧
            0 ≤ pixelToCell s.quadH y ∧ pixelToCell s.quadH y < (s.rows : ℤ))
        · rw [if_pos hb]
          rcases hget : s.grid.get?
              (pixelToCell s.quadH y * (s.cols : ℤ) + pixelToCell s.quadW x).toNat
            with _ | q
          · rfl
          · rw [elimAt, hget] at h
            simp only [Option.map_some', Option.getD_some] at h
            change (if q.eliminated = false then _ else s) = s
            rw [if_neg (by rw [h]; exact (by decide : (true : Bool) ≠ false))]
        · rw [if_neg hb]
    · rw [if_neg hgo]
  · intro hgo hb he
    unfold mouse_button_callback
    rw [if_pos hgo, if_pos hb]
    rcases hget : s.grid.get?
        (pixelToCell s.quadH y * (s.cols : ℤ) + pixelToCell s.quadW x).toNat
      with _ | q
    · rw [elimAt, hget] at he
      exact absurd he (by decide)
    · rw [elimAt, hget] at he
      simp only [Option.map_some', Option.getD_some] at he
      change (if q.eliminated = false then _ else s) = _
      rw [if_pos he]

theorem click_mapping_witness :
    (mouse_button_callback 50 50 { scenarioState with gameOver := true } =
        { scenarioState with gameOver := true } ∧
      mouse_button_callback 50 50 scenarioState =
        { scenarioState with iSelected := 0 }) :=
  ⟨(click_mapping 50 50 { scenarioState with gameOver := true }).1 (Or.inl rfl),
    by
      have hx : pixelToCell scenarioState.quadW 50 = 0 := by
        norm_num [pixelToCell, truncQ, scenarioState]
      have hy : pixelToCell scenarioState.quadH 50 = 0 := by
        norm_num [pixelToCell, truncQ, scenarioState]
      have h := (click_mapping 50 50 scenarioState).2 rfl
        (by rw [hx, hy]; decide)
        (by rw [hx, hy]; decide)
      rw [h, hx, hy]
      decide⟩


/-- C10: the pixel-to-cell map (used identically for `x`/columns and
`y`/rows) does not always select the cell whose drawn rectangle contains
the click.  For an even positive cell width: clicks in the left half
`[c*w, c*w + w/2)` of column `c ≥ 1` select column `c - 1`, and clicks in
`[0, w/2)` (the left half of column 0) still select column 0 — the
truncation toward zero of `static_cast<int>` maps `(-1/2, 0)` to `0`
instead of rejecting those positions as out of bounds. -/
theorem pixel_mapping_off_by_half (w : ℕ) (hw : 0 < w) (hw2 : 2 ∣ w) :
    (∀ (c : ℕ) (x : ℚ), 1 ≤ c → (c : ℚ) * (w : ℚ) ≤ x →
        x < (c : ℚ) * (w : ℚ) + (w : ℚ) / 2 → pixelToCell w x = (c : ℤ) - 1) ∧
    (∀ x : ℚ, 0 ≤ x → x < (w : ℚ) / 2 → pixelToCell w x = 0) := by
  have hwq : (0 : ℚ) < (w : ℚ) := by exact_mod_cast hw
  have ho : ((w / 2 : ℕ) : ℚ) = (w : ℚ) / 2 :=
    Nat.cast_div hw2 (by norm_num)
  constructor
  · intro c x hc hx1 hx2
    have hcq : (1 : ℚ) ≤ (c : ℚ) := by exact_mod_cast hc
    have hq0 : 0 ≤ (x - (w : ℚ) / 2) / (w : ℚ) := by
      apply div_nonneg _ (le_of_lt hwq)
      nlinarith
    rw [pixelToCell, ho, truncQ, if_pos hq0]
    rw [Int.floor_eq_iff]
    constructor
    · rw [le_div_iff₀ hwq]
      push_cast
      nlinarith
    · rw [div_lt_iff₀ hwq]
      push_cast
      nlinarith
  · intro x hx1 hx2
    have hqneg : (x - (w : ℚ) / 2) / (w : ℚ) < 0 := by
      apply div_neg_of_neg_of_pos _ hwq
      linarith
    rw [pixelToCell, ho, truncQ, if_neg (not_le.mpr hqneg)]
    rw [Int.ceil_eq_iff]
    constructor
    · push_cast
      rw [lt_div_iff₀ hwq]
      nlinarith
    · exact le_of_lt hqneg

theorem pixel_mapping_off_by_half_witness :
    pixelToCell 100 100 = (1 : ℤ) - 1 ∧ pixelToCell 100 0 = 0 :=
  ⟨(pixel_mapping_off_by_half 100 (by decide) (by decide)).1 1 100 (by decide)
      (by norm_num) (by norm_num),
    (pixel_mapping_off_by_half 100 (by decide) (by decide)).2 0 (by norm_num)
      (by norm_num)⟩


/-- C7: after every reset, the cell at `(row, col)` has center exactly
`(col*cellWidth + cellWidth/2, row*cellHeight + cellHeight/2)`, for all
grid dimensions and cell sizes. -/
theorem layout_determinism (f : ℕ → ℕ) (s : GameState) (i j : ℕ)
    (hi : i < s.rows) (hj : j < s.cols) :
    ((resetGame f s).grid.get? (i * s.cols + j)).map (fun q => (q.posX, q.posY)) =
      some ((j : ℚ) * (s.quadW : ℚ) + (s.quadW : ℚ) / 2,
        (i : ℚ) * (s.quadH : ℚ) + (s.quadH : ℚ) / 2) := by
  have hcols : 0 < s.cols := lt_of_le_of_lt (Nat.zero_le j) hj
  have hlt : i * s.cols + j < s.rows * s.cols := by
    calc i * s.cols + j < i * s.cols + s.cols := by omega
      _ = (i + 1) * s.cols := by ring
      _ ≤ s.rows * s.cols := Nat.mul_le_mul_right _ (by omega)
  have hdiv : (i * s.cols + j) / s.cols = i := by
    rw [Nat.mul_comm i s.cols, Nat.mul_add_div hcols, Nat.div_eq_of_lt hj,
      Nat.add_zero]
  have hmod : (i * s.cols + j) % s.cols = j := by
    rw [Nat.mul_comm i s.cols, Nat.mul_add_mod, Nat.mod_eq_of_lt hj]
  rw [resetGame]
  simp only [List.get?_map, List.get?_range hlt, Option.map_some']
  simp [hdiv, hmod]

theorem layout_determinism_witness :
    ((resetGame (fun n => n) scenarioState).grid.get?
        (1 * scenarioState.cols + 1)).map (fun q => (q.posX, q.posY)) =
      some (((1 : ℕ) : ℚ) * (scenarioState.quadW : ℚ) + (scenarioState.quadW : ℚ) / 2,
        ((1 : ℕ) : ℚ) * (scenarioState.quadH : ℚ) + (scenarioState.quadH : ℚ) / 2) :=
  layout_determinism (fun n => n) scenarioState 1 1 (by decide) (by decide)

/-- C8: after every reset the counters and flags are at their initial
values (`attempts = 0`, `score = 0`, `gameOver = false`, no pending
selection), every cell is active, and every color channel is `a/255` for
the draw `a = rand % 256`, an integer level in `0..255`, hence lies in
`[0, 1]`. -/
theorem reset_initial_state (f : ℕ → ℕ) (s : GameState) :
    (resetGame f s).attempts = 0 ∧ (resetGame f s).score = 0 ∧
    (resetGame f s).gameOver = false ∧ (resetGame f s).iSelected = -1 ∧
    ∀ (k : ℕ) (q : Quad), (resetGame f s).grid.get? k = some q →
      q.eliminated = false ∧
      q.color = ⟨((f (3 * k) % 256 : ℕ) : ℚ) / 255,
        ((f (3 * k + 1) % 256 : ℕ) : ℚ) / 255,
        ((f (3 * k + 2) % 256 : ℕ) : ℚ) / 255⟩ ∧
      (∃ a : ℕ, a ≤ 255 ∧ q.color.r = (a : ℚ) / 255) ∧
      (∃ a : ℕ, a ≤ 255 ∧ q.color.g = (a : ℚ) / 255) ∧
      (∃ a : ℕ, a ≤ 255 ∧ q.color.b = (a : ℚ) / 255) ∧
      (0 ≤ q.color.r ∧ q.color.r ≤ 1) ∧
      (0 ≤ q.color.g ∧ q.color.g ≤ 1) ∧
      (0 ≤ q.color.b ∧ q.color.b ≤ 1) := by
  refine ⟨rfl, rfl, rfl, rfl, ?_⟩
  intro k q hq
  have hlen : k < s.rows * s.cols := by
    rcases List.get?_eq_some.mp hq with ⟨h, _⟩
    simpa [resetGame] using h
  rw [resetGame] at hq
  simp only [List.get?_map, List.get?_range hlen, Option.map_some',
    Option.some.injEq] at hq
  have hrange : ∀ m : ℕ, f m % 256 ≤ 255 := by
    intro m
    have := Nat.mod_lt (f m) (show 0 < 256 by norm_num)
    omega
  have hbound : ∀ m : ℕ, 0 ≤ ((f m % 256 : ℕ) : ℚ) / 255 ∧
      ((f m % 256 : ℕ) : ℚ) / 255 ≤ 1 := by
    intro m
    constructor
    · positivity
    · rw [div_le_one (by norm_num : (0 : ℚ) < 255)]
      exact_mod_cast hrange m
  subst hq
  refine ⟨rfl, rfl, ?_, ?_, ?_, ?_, ?_, ?_⟩
  · exact ⟨f (3 * k) % 256, hrange _, rfl⟩
  · exact ⟨f (3 * k + 1) % 256, hrange _, rfl⟩
  · exact ⟨f (3 * k + 2) % 256, hrange _, rfl⟩
  · exact hbound _
  · exact hbound _
  · exact hbound _

theorem reset_initial_state_witness :
    (resetGame (fun n => n) unitState).attempts = 0 ∧
    (resetGame (fun n => n) unitState).score = 0 ∧
    (resetGame (fun n => n) unitState).gameOver = false ∧
    (resetGame (fun n => n) unitState).iSelected = -1 ∧
    ((⟨50, 50, 100, 100, ⟨0, 1 / 255, 2 / 255⟩, false⟩ : Quad).eliminated = false ∧
      (⟨50, 50, 100, 100, ⟨0, 1 / 255, 2 / 255⟩, false⟩ : Quad).color =
        ⟨(((fun n => n) (3 * 0) % 256 : ℕ) : ℚ) / 255,
          (((fun n => n) (3 * 0 + 1) % 256 : ℕ) : ℚ) / 255,
          (((fun n => n) (3 * 0 + 2) % 256 : ℕ) : ℚ) / 255⟩ ∧
      (∃ a : ℕ, a ≤ 255 ∧
        (⟨50, 50, 100, 100, ⟨0, 1 / 255, 2 / 255⟩, false⟩ : Quad).color.r = (a : ℚ) / 255) ∧
      (∃ a : ℕ, a ≤ 255 ∧
        (⟨50, 50, 100, 100, ⟨0, 1 / 255, 2 / 255⟩, false⟩ : Quad).color.g = (a : ℚ) / 255) ∧
      (∃ a : ℕ, a ≤ 255 ∧
        (⟨50, 50, 100, 100, ⟨0, 1 / 255, 2 / 255⟩, false⟩ : Quad).color.b = (a : ℚ) / 255) ∧
      (0 ≤ (⟨50, 50, 100, 100, ⟨0, 1 / 255, 2 / 255⟩, false⟩ : Quad).color.r ∧
        (⟨50, 50, 100, 100, ⟨0, 1 / 255, 2 / 255⟩, false⟩ : Quad).color.r ≤ 1) ∧
      (0 ≤ (⟨50, 50, 100, 100, ⟨0, 1 / 255, 2 / 255⟩, false⟩ : Quad).color.g ∧
        (⟨50, 50, 100, 100, ⟨0, 1 / 255, 2 / 255⟩, false⟩ : Quad).color.g ≤ 1) ∧
      (0 ≤ (⟨50, 50, 100, 100, ⟨0, 1 / 255, 2 / 255⟩, false⟩ : Quad).color.b ∧
        (⟨50, 50, 100, 100, ⟨0, 1 / 255, 2 / 255⟩, false⟩ : Quad).color.b ≤ 1)) := by
  have hq : (resetGame (fun n => n) unitState).grid.get? 0 =
      some ⟨50, 50, 100, 100, ⟨0, 1 / 255, 2 / 255⟩, false⟩ := by
    rw [resetGame]
    rw [show unitState.rows * unitState.cols = 1 from rfl]
    rw [show List.range 1 = [0] from rfl]
    rw [List.get?_map]
    rw [show ([0] : List ℕ).get? 0 = some 0 from rfl, Option.map_some']
    norm_num [randColor, unitState]
  have h := reset_initial_state (fun n => n) unitState
  exact ⟨h.1, h.2.1, h.2.2.1, h.2.2.2.1, h.2.2.2.2 0 _ hq⟩


/-- A mouse click changes at most `iSelected`: grid, counters and the
game-over flag are untouched. -/
theorem mouse_button_callback_fields (x y : ℚ) (s : GameState) :
    (mouse_button_callback x y s).grid = s.grid ∧
    (mouse_button_callback x y s).attempts = s.attempts ∧
    (mouse_button_callback x y s).score = s.score ∧
    (mouse_button_callback x y s).gameOver = s.gameOver := by
  unfold mouse_button_callback
  split
  · split
    · split
      · exact ⟨rfl, rfl, rfl, rfl⟩
      · split
        · exact ⟨rfl, rfl, rfl, rfl⟩
        · exact ⟨rfl, rfl, rfl, rfl⟩
    · exact ⟨rfl, rfl, rfl, rfl⟩
  · exact ⟨rfl, rfl, rfl, rfl⟩

/-- `eliminarSimilares` never touches the counters or the game-over
flag, and never changes the number of grid cells. -/
theorem eliminarSimilares_fields (tol : ℚ) (s : GameState) :
    (eliminarSimilares tol s).1.attempts = s.attempts ∧
    (eliminarSimilares tol s).1.score = s.score ∧
    (eliminarSimilares tol s).1.gameOver = s.gameOver ∧
    (eliminarSimilares tol s).1.grid.length = s.grid.length := by
  unfold eliminarSimilares
  split
  · exact ⟨rfl, rfl, rfl, rfl⟩
  · split
    · exact ⟨rfl, rfl, rfl, rfl⟩
    · refine ⟨rfl, rfl, rfl, ?_⟩
      simp

/-- The score phase changes only `attempts` and `score`. -/
theorem applyScore_fields (s1 : GameState) (r : ℤ) :
    (applyScore s1 r).grid = s1.grid ∧
    (applyScore s1 r).gameOver = s1.gameOver ∧
    (applyScore s1 r).iSelected = s1.iSelected := by
  unfold applyScore
  split
  · exact ⟨rfl, rfl, rfl⟩
  · exact ⟨rfl, rfl, rfl⟩

/-- The game-over phase changes only `gameOver`. -/
theorem applyGameOverCheck_fields (s2 : GameState) :
    (applyGameOverCheck s2).grid = s2.grid ∧
    (applyGameOverCheck s2).attempts = s2.attempts ∧
    (applyGameOverCheck s2).score = s2.score := by
  unfold applyGameOverCheck
  split
  · exact ⟨rfl, rfl, rfl⟩
  · exact ⟨rfl, rfl, rfl⟩

/-- A resolution can only turn `eliminated` flags on, never off. -/
theorem eliminarSimilares_elimAt_mono (tol : ℚ) (s : GameState) (k : ℕ)
    (h : elimAt s k = true) : elimAt (eliminarSimilares tol s).1 k = true := by
  unfold eliminarSimilares
  split
  · exact h
  · split
    · exact h
    · next q heq =>
      rw [elimAt] at h ⊢
      rw [List.get?_map]
      rcases hsk : (s.grid.set s.iSelected.toNat (markEliminated q)).get? k with _ | c
      · simp
      · simp only [Option.map_some', Option.getD_some]
        have hc : c.eliminated = true := by
          by_cases hk : s.iSelected.toNat = k
          · subst hk
            have hlt : s.iSelected.toNat < s.grid.length := by
              rcases List.get?_eq_some.mp heq with ⟨hh, _⟩; exact hh
            rw [List.get?_set_eq_of_lt _ hlt] at hsk
            rw [show c = markEliminated q from (Option.some.inj hsk).symm]
            rfl
          · rw [List.get?_set_ne _ _ hk] at hsk
            rw [hsk] at h
            simpa using h
        simp [hc, markEliminated]

/-- A main-loop tick can only turn `eliminated` flags on, never off. -/
theorem tick_elimAt_mono (tol : ℚ) (s : GameState) (k : ℕ)
    (h : elimAt s k = true) : elimAt (tick tol s).1 k = true := by
  unfold tick
  split
  · have hg : ({ applyGameOverCheck
        (applyScore (eliminarSimilares tol s).1 (eliminarSimilares tol s).2) with
          iSelected := -1 } : GameState).grid = (eliminarSimilares tol s).1.grid := by
      rw [show ({ applyGameOverCheck
          (applyScore (eliminarSimilares tol s).1 (eliminarSimilares tol s).2) with
            iSelected := -1 } : GameState).grid
          = (applyGameOverCheck (applyScore (eliminarSimilares tol s).1
              (eliminarSimilares tol s).2)).grid from rfl]
      rw [(applyGameOverCheck_fields _).1, (applyScore_fields _ _).1]
    rw [elimAt, hg, ← elimAt]
    exact eliminarSimilares_elimAt_mono tol s k h
  · exact h

/-- C6: `eliminated` is monotonic along every sequence of click and
resolution operations — once set it stays set — and `resetGame` is the
operation that clears the flags (every in-range cell is active right
after a reset). -/
theorem eliminated_monotonic :
    (∀ (ops : List Op) (s : GameState) (k : ℕ),
        elimAt s k = true → elimAt (applyOps ops s) k = true) ∧
    (∀ (f : ℕ → ℕ) (s : GameState) (k : ℕ), k < s.rows * s.cols →
        elimAt (resetGame f s) k = false) := by
  constructor
  · intro ops
    induction ops with
    | nil => exact fun s k h => h
    | cons op rest ih =>
      intro s k h
      rw [show applyOps (op :: rest) s = applyOps rest (applyOp op s) from rfl]
      refine ih _ _ ?_
      rcases op with ⟨x, y⟩ | ⟨tol⟩
      · rw [show applyOp (Op.click x y) s = mouse_button_callback x y s from rfl]
        rw [elimAt, (mouse_button_callback_fields x y s).1, ← elimAt]
        exact h
      · exact tick_elimAt_mono tol s k h
  · intro f s k hk
    rw [elimAt, resetGame]
    rw [show ({ s with
        attempts := 0, score := 0, gameOver := false, iSelected := -1
        grid := (List.range (s.rows * s.cols)).map fun k =>
          { posX := ((k % s.cols : ℕ) : ℚ) * (s.quadW : ℚ) + (s.quadW : ℚ) / 2
            posY := ((k / s.cols : ℕ) : ℚ) * (s.quadH : ℚ) + (s.quadH : ℚ) / 2
            dimX := (s.quadW : ℚ)
            dimY := (s.quadH : ℚ)
            color := randColor f k
            eliminated := false } } : GameState).grid
      = (List.range (s.rows * s.cols)).map fun k =>
          ({ posX := ((k % s.cols : ℕ) : ℚ) * (s.quadW : ℚ) + (s.quadW : ℚ) / 2
             posY := ((k / s.cols : ℕ) : ℚ) * (s.quadH : ℚ) + (s.quadH : ℚ) / 2
             dimX := (s.quadW : ℚ)
             dimY := (s.quadH : ℚ)
             color := randColor f k
             eliminated := false } : Quad) from rfl]
    rw [List.get?_map, List.get?_range hk]
    rfl

theorem eliminated_monotonic_witness :
    elimAt (applyOps [Op.click 50 50]
        { scenarioState with
          grid := [markEliminated scQuad0, scQuad1, scQuad2, scQuad3] }) 0 = true ∧
    elimAt (resetGame (fun n => n) unitState) 0 = false :=
  ⟨eliminated_monotonic.1 [Op.click 50 50]
      { scenarioState with
        grid := [markEliminated scQuad0, scQuad1, scQuad2, scQuad3] } 0 (by decide),
    eliminated_monotonic.2 (fun n => n) unitState 0 (by decide)⟩


/-- C5: `gameOver` becomes true exactly on a resolution after which no
active cell remains (first conjunct, an iff for any resolving tick from a
non-game-over state); while true it blocks tick processing and click
processing entirely; clicks never change it; a tick without pending
selection changes nothing; and `resetGame` is the operation that clears
it. -/
theorem gameOver_trigger :
    (∀ (tol : ℚ) (s : GameState), s.gameOver = false → 0 ≤ s.iSelected →
        ((tick tol s).1.gameOver = true ↔ anyActiveCell (tick tol s).1 = false)) ∧
    (∀ (tol : ℚ) (s : GameState), s.gameOver = true → tick tol s = (s, 0)) ∧
    (∀ (x y : ℚ) (s : GameState), s.gameOver = true →
        mouse_button_callback x y s = s) ∧
    (∀ (x y : ℚ) (s : GameState),
        (mouse_button_callback x y s).gameOver = s.gameOver) ∧
    (∀ (tol : ℚ) (s : GameState), s.iSelected < 0 → tick tol s = (s, 0)) ∧
    (∀ (f : ℕ → ℕ) (s : GameState), (resetGame f s).gameOver = false) := by
  refine ⟨?_, ?_, ?_, ?_, ?_, ?_⟩
  · intro tol s hgo hsel
    unfold tick
    rw [if_pos ⟨hsel, hgo⟩]
    unfold applyGameOverCheck
    split
    · next hact =>
      constructor
      · intro _
        exact hact
      · intro _
        rfl
    · next hact =>
      constructor
      · intro hcontra
        exfalso
        have h1 : (applyScore (eliminarSimilares tol s).1
            (eliminarSimilares tol s).2).gameOver = s.gameOver := by
          rw [(applyScore_fields _ _).2.1, (eliminarSimilares_fields tol s).2.2.1]
        rw [show ({ applyScore (eliminarSimilares tol s).1 (eliminarSimilares tol s).2
              with iSelected := -1 } : GameState).gameOver
            = (applyScore (eliminarSimilares tol s).1
                (eliminarSimilares tol s).2).gameOver from rfl] at hcontra
        rw [h1, hgo] at hcontra
        exact absurd hcontra (by decide)
      · intro hcontra
        exact absurd hcontra hact
  · intro tol s h
    unfold tick
    rw [if_neg ?_]
    rintro ⟨-, h2⟩
    rw [h] at h2
    exact absurd h2 (by decide)
  · intro x y s h
    unfold mouse_button_callback
    rw [if_neg ?_]
    intro h2
    rw [h] at h2
    exact absurd h2 (by decide)
  · intro x y s
    exact (mouse_button_callback_fields x y s).2.2.2
  · intro tol s h
    unfold tick
    rw [if_neg ?_]
    rintro ⟨h1, -⟩
    omega
  · intro f s
    rfl

theorem gameOver_trigger_witness :
    (((tick COLOR_TOLERANCE { scenarioState with iSelected := 3 }).1.gameOver = true ↔
        anyActiveCell (tick COLOR_TOLERANCE { scenarioState with iSelected := 3 }).1
          = false)) ∧
    tick COLOR_TOLERANCE { scenarioState with gameOver := true } =
      ({ scenarioState with gameOver := true }, 0) ∧
    mouse_button_callback 50 50 { scenarioState with gameOver := true } =
      { scenarioState with gameOver := true } ∧
    (mouse_button_callback 50 50 scenarioState).gameOver = scenarioState.gameOver ∧
    tick COLOR_TOLERANCE scenarioState = (scenarioState, 0) ∧
    (resetGame (fun n => n) unitState).gameOver = false :=
  ⟨gameOver_trigger.1 COLOR_TOLERANCE { scenarioState with iSelected := 3 } rfl
      (by decide),
    gameOver_trigger.2.1 COLOR_TOLERANCE { scenarioState with gameOver := true } rfl,
    gameOver_trigger.2.2.1 50 50 { scenarioState with gameOver := true } rfl,
    gameOver_trigger.2.2.2.1 50 50 scenarioState,
    gameOver_trigger.2.2.2.2.1 COLOR_TOLERANCE scenarioState (by decide),
    gameOver_trigger.2.2.2.2.2 (fun n => n) unitState⟩


/-- Clamping `if x < 0 then 0 else x` is `max 0 x` on `ℤ`. -/
theorem clamp_eq_max (x : ℤ) : (if x < 0 then 0 else x) = max 0 x := by
  by_cases h : x < 0
  · rw [if_pos h, max_eq_left (by omega)]
  · rw [if_neg h, max_eq_right (by omega)]

/-- A successful score phase increments `attempts` and clamps the score
update at zero. -/
theorem applyScore_success (s1 : GameState) (r : ℤ) (hr : 0 < r) :
    (applyScore s1 r).attempts = s1.attempts + 1 ∧
    (applyScore s1 r).score = max 0 (s1.score + (r - (s1.attempts + 1))) := by
  unfold applyScore
  rw [if_pos hr]
  exact ⟨rfl, clamp_eq_max _⟩

/-- A zero-removal score phase is the identity. -/
theorem applyScore_fail (s1 : GameState) (r : ℤ) (hr : ¬0 < r) :
    applyScore s1 r = s1 := by
  unfold applyScore
  rw [if_neg hr]

/-- A tick returning a positive removal count increments `attempts` by
one and sets `score = max 0 (score + removed - attempts')`. -/
theorem tick_success (tol : ℚ) (s s' : GameState) (r : ℤ)
    (h : tick tol s = (s', r)) (hr : 0 < r) :
    s'.attempts = s.attempts + 1 ∧
    s'.score = max 0 (s.score + r - (s.attempts + 1)) := by
  unfold tick at h
  split at h
  · injection h with h1 h2
    subst h1
    subst h2
    constructor
    · show (applyGameOverCheck (applyScore (eliminarSimilares tol s).1
          (eliminarSimilares tol s).2)).attempts = s.attempts + 1
      rw [(applyGameOverCheck_fields _).2.1,
        (applyScore_success _ _ hr).1, (eliminarSimilares_fields tol s).1]
    · show (applyGameOverCheck (applyScore (eliminarSimilares tol s).1
          (eliminarSimilares tol s).2)).score
        = max 0 (s.score + (eliminarSimilares tol s).2 - (s.attempts + 1))
      rw [(applyGameOverCheck_fields _).2.2,
        (applyScore_success _ _ hr).2, (eliminarSimilares_fields tol s).2.1,
        (eliminarSimilares_fields tol s).1]
      congr 1
      ring
  · injection h with h1 h2
    subst h2
    exact absurd hr (by omega)

/-- A tick with no positive removal leaves `attempts` and `score`
unchanged. -/
theorem tick_nonpos (tol : ℚ) (s s' : GameState) (r : ℤ)
    (h : tick tol s = (s', r)) (hr : ¬0 < r) :
    s'.attempts = s.attempts ∧ s'.score = s.score := by
  unfold tick at h
  split at h
  · injection h with h1 h2
    subst h1
    subst h2
    constructor
    · show (applyGameOverCheck (applyScore (eliminarSimilares tol s).1
          (eliminarSimilares tol s).2)).attempts = s.attempts
      rw [(applyGameOverCheck_fields _).2.1, applyScore_fail _ _ hr,
        (eliminarSimilares_fields tol s).1]
    · show (applyGameOverCheck (applyScore (eliminarSimilares tol s).1
          (eliminarSimilares tol s).2)).score = s.score
      rw [(applyGameOverCheck_fields _).2.2, applyScore_fail _ _ hr,
        (eliminarSimilares_fields tol s).2.1]
  · injection h with h1 h2
    subst h1
    exact ⟨rfl, rfl⟩

/-- C2: in every reachable state the `attempts` counter equals the number
of successful resolutions since the last reset and the score is
non-negative; the (k+1)-st successful resolution (removing `r ≥ 1` cells)
sets `attempts = k + 1` and `score = max 0 (score_prev + r - (k + 1))` —
the penalty is the running attempt count itself. -/
theorem score_accounting (s : GameState) (n : ℕ) (h : ReachableN s n) :
    s.attempts = (n : ℤ) ∧ 0 ≤ s.score ∧
    (∀ (s' : GameState) (r : ℤ),
      tick COLOR_TOLERANCE s = (s', r) → 0 < r →
      s'.attempts = (n : ℤ) + 1 ∧
      s'.score = max 0 (s.score + r - ((n : ℤ) + 1))) := by
  induction h with
  | reset f s0 =>
    refine ⟨by simp [resetGame], le_refl 0, ?_⟩
    intro s' r htick hr
    have h2 := tick_success COLOR_TOLERANCE _ s' r htick hr
    rw [show (resetGame f s0).attempts = 0 from rfl,
      show (resetGame f s0).score = 0 from rfl] at h2
    rw [show (resetGame f s0).score = 0 from rfl]
    simpa using h2
  | @click x y s1 n1 hs ih =>
    obtain ⟨ih1, ih2, ih3⟩ := ih
    refine ⟨?_, ?_, ?_⟩
    · rw [(mouse_button_callback_fields x y s1).2.1, ih1]
    · rw [(mouse_button_callback_fields x y s1).2.2.1]
      exact ih2
    · intro s' r htick hr
      have h2 := tick_success COLOR_TOLERANCE _ s' r htick hr
      rw [(mouse_button_callback_fields x y s1).2.1, ih1,
        (mouse_button_callback_fields x y s1).2.2.1] at h2
      rw [(mouse_button_callback_fields x y s1).2.2.1]
      exact h2
  | @tickStep s1 n1 hs ih =>
    obtain ⟨ih1, ih2, ih3⟩ := ih
    have hpair : tick COLOR_TOLERANCE s1 =
        ((tick COLOR_TOLERANCE s1).1, (tick COLOR_TOLERANCE s1).2) := rfl
    by_cases hr : 0 < (tick COLOR_TOLERANCE s1).2
    · have h2 := tick_success COLOR_TOLERANCE s1 _ _ hpair hr
      have hatt : (tick COLOR_TOLERANCE s1).1.attempts =
          ((if 0 < (tick COLOR_TOLERANCE s1).2 then n1 + 1 else n1 : ℕ) : ℤ) := by
        rw [if_pos hr, h2.1, ih1]
        push_cast
        ring
      refine ⟨hatt, ?_, ?_⟩
      · rw [h2.2]
        exact le_max_left 0 _
      · intro s' r htick hr2
        have h3 := tick_success COLOR_TOLERANCE _ s' r htick hr2
        rw [hatt] at h3
        exact h3
    · have h2 := tick_nonpos COLOR_TOLERANCE s1 _ _ hpair hr
      have hatt : (tick COLOR_TOLERANCE s1).1.attempts =
          ((if 0 < (tick COLOR_TOLERANCE s1).2 then n1 + 1 else n1 : ℕ) : ℤ) := by
        rw [if_neg hr, h2.1, ih1]
      refine ⟨hatt, ?_, ?_⟩
      · rw [h2.2]
        exact ih2
      · intro s' r htick hr2
        have h3 := tick_success COLOR_TOLERANCE _ s' r htick hr2
        rw [hatt] at h3
        exact h3

theorem score_accounting_witness :
    (resetGame (fun n => n) unitState).attempts = ((0 : ℕ) : ℤ) ∧
    0 ≤ (resetGame (fun n => n) unitState).score ∧
    (∀ (s' : GameState) (r : ℤ),
      tick COLOR_TOLERANCE (resetGame (fun n => n) unitState) = (s', r) → 0 < r →
      s'.attempts = ((0 : ℕ) : ℤ) + 1 ∧
      s'.score = max 0 ((resetGame (fun n => n) unitState).score + r
        - (((0 : ℕ) : ℤ) + 1))) :=
  score_accounting (resetGame (fun n => n) unitState) 0
    (ReachableN.reset (fun n => n) unitState)


/-- Scenario click 1: pixel `(50,50)` selects cell `(0,0)`. -/
theorem scClick1 :
    mouse_button_callback 50 50 scenarioState = { scenarioState with iSelected := 0 } := by
  unfold mouse_button_callback
  rw [show pixelToCell scenarioState.quadW 50 = 0 from by
      norm_num [pixelToCell, truncQ, scenarioState],
    show pixelToCell scenarioState.quadH 50 = 0 from by
      norm_num [pixelToCell, truncQ, scenarioState]]
  decide

/-- Scenario resolution 1 removes the two red cells. -/
theorem scElim1 :
    eliminarSimilares COLOR_TOLERANCE { scenarioState with iSelected := 0 } =
      ({ scenarioState with
          grid := [markEliminated scQuad0, markEliminated scQuad1, scQuad2, scQuad3]
          iSelected := -1 }, 2) := by
  rw [eliminarSimilares_pending COLOR_TOLERANCE { scenarioState with iSelected := 0 }
    0 scQuad0 rfl rfl]
  rw [show ({ scenarioState with iSelected := 0 } : GameState).grid.set 0
      (markEliminated scQuad0)
    = [markEliminated scQuad0, scQuad1, scQuad2, scQuad3] from rfl]
  simp only [scenarioState, scQuad0, scQuad1, scQuad2, scQuad3, markEliminated,
    List.map_cons, List.map_nil, List.countP_cons, List.countP_nil,
    Bool.not_false, Bool.not_true, Bool.true_and, Bool.false_and,
    isSimilar_red_red, isSimilar_red_blue, isSimilar_red_green]
  norm_num [isSimilar_red_red, isSimilar_red_blue, isSimilar_red_green]

/-- Scenario tick 1: `attempts = 1`, `score = max(0, 0 + 2 - 1) = 1`. -/
theorem scTick1 :
    tick COLOR_TOLERANCE { scenarioState with iSelected := 0 } = (scState1, 2) := by
  unfold tick
  rw [if_pos (by decide)]
  rw [scElim1]
  decide

/-- Scenario click 2: pixel `(50,150)` selects cell `(1,0)` (index 2). -/
theorem scClick2 :
    mouse_button_callback 50 150 scState1 = { scState1 with iSelected := 2 } := by
  unfold mouse_button_callback
  rw [show pixelToCell scState1.quadW 50 = 0 from by
      norm_num [pixelToCell, truncQ, scState1, scenarioState],
    show pixelToCell scState1.quadH 150 = 1 from by
      norm_num [pixelToCell, truncQ, scState1, scenarioState]]
  decide

/-- Scenario resolution 2 removes only the blue cell. -/
theorem scElim2 :
    eliminarSimilares COLOR_TOLERANCE { scState1 with iSelected := 2 } =
      ({ scState1 with
          grid := [markEliminated scQuad0, markEliminated scQuad1,
            markEliminated scQuad2, scQuad3]
          iSelected := -1 }, 1) := by
  rw [eliminarSimilares_pending COLOR_TOLERANCE { scState1 with iSelected := 2 }
    2 scQuad2 rfl rfl]
  rw [show ({ scState1 with iSelected := 2 } : GameState).grid.set 2
      (markEliminated scQuad2)
    = [markEliminated scQuad0, markEliminated scQuad1, markEliminated scQuad2,
        scQuad3] from rfl]
  simp only [scState1, scenarioState, scQuad0, scQuad1, scQuad2, scQuad3,
    markEliminated, List.map_cons, List.map_nil, List.countP_cons, List.countP_nil,
    Bool.not_false, Bool.not_true, Bool.true_and, Bool.false_and,
    isSimilar_blue_green]
  norm_num [isSimilar_blue_green]

/-- Scenario tick 2: `attempts = 2`, `score = max(0, 1 + 1 - 2) = 0`. -/
theorem scTick2 :
    tick COLOR_TOLERANCE { scState1 with iSelected := 2 } = (scState2, 1) := by
  unfold tick
  rw [if_pos (by decide)]
  rw [scElim2]
  decide

/-- Scenario click 3: pixel `(150,150)` selects the remaining cell
`(1,1)` (index 3). -/
theorem scClick3 :
    mouse_button_callback 150 150 scState2 = { scState2 with iSelected := 3 } := by
  unfold mouse_button_callback
  rw [show pixelToCell scState2.quadW 150 = 1 from by
      norm_num [pixelToCell, truncQ, scState2, scenarioState],
    show pixelToCell scState2.quadH 150 = 1 from by
      norm_num [pixelToCell, truncQ, scState2, scenarioState]]
  decide

/-- Scenario resolution 3 removes the last cell. -/
theorem scElim3 :
    eliminarSimilares COLOR_TOLERANCE { scState2 with iSelected := 3 } =
      ({ scState2 with
          grid := [markEliminated scQuad0, markEliminated scQuad1,
            markEliminated scQuad2, markEliminated scQuad3]
          iSelected := -1 }, 1) := by
  rw [eliminarSimilares_pending COLOR_TOLERANCE { scState2 with iSelected := 3 }
    3 scQuad3 rfl rfl]
  rw [show ({ scState2 with iSelected := 3 } : GameState).grid.set 3
      (markEliminated scQuad3)
    = [markEliminated scQuad0, markEliminated scQuad1, markEliminated scQuad2,
        markEliminated scQuad3] from rfl]
  simp only [scState2, scenarioState, scQuad0, scQuad1, scQuad2, scQuad3,
    markEliminated, List.map_cons, List.map_nil, List.countP_cons, List.countP_nil,
    Bool.not_false, Bool.not_true, Bool.true_and, Bool.false_and]
  norm_num

/-- Scenario tick 3: `attempts = 3`, `score = max(0, 0 + 1 - 3) = 0`,
and with no active cell left the game ends. -/
theorem scTick3 :
    tick COLOR_TOLERANCE { scState2 with iSelected := 3 } = (scState3, 1) := by
  unfold tick
  rw [if_pos (by decide)]
  rw [scElim3]
  decide

/-- C9: in the 2×2 scenario with tolerance `0.2` and colors
`(1,0,0),(1,0,0),(0,0,1),(0,1,0)`: clicking pixel `(50,50)` resolves
removing 2 cells and gives `attempts = 1`, `score = 1`; clicking
`(50,150)` removes 1 cell and gives `attempts = 2`, `score = 0`; clicking
the remaining cell at `(150,150)` removes it and sets
`gameOver = true`. -/
theorem scenario_correct :
    (tick COLOR_TOLERANCE (mouse_button_callback 50 50 scenarioState)).2 = 2 ∧
    scenarioAfter1.attempts = 1 ∧ scenarioAfter1.score = 1 ∧
    (tick COLOR_TOLERANCE (mouse_button_callback 50 150 scenarioAfter1)).2 = 1 ∧
    scenarioAfter2.attempts = 2 ∧ scenarioAfter2.score = 0 ∧
    (tick COLOR_TOLERANCE (mouse_button_callback 150 150 scenarioAfter2)).2 = 1 ∧
    scenarioAfter3.gameOver = true := by
  have e1 : scenarioAfter1 = scState1 := by
    unfold scenarioAfter1
    rw [scClick1, scTick1]
  have e2 : scenarioAfter2 = scState2 := by
    unfold scenarioAfter2
    rw [e1, scClick2, scTick2]
  have e3 : scenarioAfter3 = scState3 := by
    unfold scenarioAfter3
    rw [e2, scClick3, scTick3]
  refine ⟨?_, ?_, ?_, ?_, ?_, ?_, ?_, ?_⟩
  · rw [scClick1, scTick1]
  · rw [e1]
    rfl
  · rw [e1]
    rfl
  · rw [e1, scClick2, scTick2]
  · rw [e2]
    rfl
  · rw [e2]
    rfl
  · rw [e2, scClick3, scTick3]
  · rw [e3]
    rfl

end JogoDasCores
